import Mathlib

/-!
Shallow embedding of the subscription backend of this repository:
`app/models/subscription.py`, `app/services/subscription_service.py`, and
`app/api/subscriptions.py`.

Modelling conventions:
- Wall-clock instants (`datetime` values) and epoch-millisecond integers are
  both modelled as `Int` milliseconds since the epoch.  The code converts
  `expiration_at_ms` to a `datetime` with
  `datetime.utcfromtimestamp(expiration_at_ms / 1000)`; this conversion is
  order-preserving and injective, so a stored `expires_at` instant is
  represented by the originating millisecond value, and `datetime.utcnow()`
  by the millisecond parameter `now`.
- The MongoDB `subscriptions` collection (one document per `user_id`) is a
  `Store := String → Option SubscriptionInDB`; the `update_one ... {$set}`
  merge-upsert overwrites exactly the fields present in the patch dict and a
  freshly inserted document materialises the pydantic defaults of
  `SubscriptionInDB` for the fields the patch leaves absent.
- Python truthiness on optional values (`if week_start_ms:`,
  `if not user_id:`, `if event.expiration_at_ms:`) is modelled explicitly:
  `none`, `some 0` and `some ""` are falsy.
- Python `(now - week_start).days` floors the difference, exactly
  `Int.fdiv` of the millisecond difference by one day.
-/

namespace Dumplin

/-- `SubscriptionStatus` enum from `app/models/subscription.py`. -/
inductive SubscriptionStatus
  | active
  | expired
  | cancelled
  | trialing
deriving DecidableEq, Repr

/-- `SubscriptionInDB` record from `app/models/subscription.py`.
`expires_at`, `created_at`, `updated_at` are epoch milliseconds. -/
structure SubscriptionInDB where
  user_id : String
  revenuecat_customer_id : Option String
  status : SubscriptionStatus
  entitlements : List String
  current_product_id : Option String
  expires_at : Option Int
  created_at : Int
  updated_at : Int
deriving DecidableEq, Repr

/-- `WebhookEvent` payload from `app/models/subscription.py`.  The Python
model stores a raw `event : dict` and exposes accessor properties; here each
accessed key is a field, with the same defaults the accessors produce via
`dict.get`: `type`, `app_user_id` and `original_app_user_id` default to
`""`, the others to `None` / `[]`. -/
structure WebhookEvent where
  event_type : String := ""
  app_user_id : String := ""
  original_app_user_id : String := ""
  product_id : Option String := none
  entitlement_ids : List String := []
  expiration_at_ms : Option Int := none
  period_type : Option String := none
deriving DecidableEq, Repr

/-- `WebhookEvent.entitlement_id`: the first entry of `entitlement_ids` when
the list is nonempty, else `None`. -/
def WebhookEvent.entitlement_id (e : WebhookEvent) : Option String :=
  e.entitlement_ids.head?

/-- `WebhookEvent.is_trial`: `event.get("period_type") == "TRIAL"`. -/
def WebhookEvent.is_trial (e : WebhookEvent) : Bool :=
  e.period_type = some "TRIAL"

/-- Python truthiness of an optional string (`None` and `""` are falsy). -/
def strTruthy : Option String → Bool
  | none => false
  | some s => s ≠ ""

/-- `entitlements = [event.entitlement_id] if event.entitlement_id else []`,
shared by the purchase / renewal / uncancellation / product-change
handlers (an empty-string entitlement id is falsy). -/
def eventEntitlements (e : WebhookEvent) : List String :=
  match e.entitlement_id with
  | some t => if t ≠ "" then [t] else []
  | none => []

/-- `expires_at = datetime.utcfromtimestamp(event.expiration_at_ms / 1000)
if event.expiration_at_ms else None`, kept in epoch milliseconds (a zero
timestamp is falsy, so it also yields `None`). -/
def eventExpiresAt (e : WebhookEvent) : Option Int :=
  match e.expiration_at_ms with
  | some ms => if ms ≠ 0 then some ms else none
  | none => none

/-- The `subscriptions` collection: one document per `user_id` key. -/
def Store : Type := String → Option SubscriptionInDB

/-- A collection with no documents. -/
def emptyStore : Store := fun _ => none

/-- Overwrite the document stored under `uid`. -/
def storeSet (store : Store) (uid : String) (r : SubscriptionInDB) : Store :=
  fun k => if k = uid then some r else store k

/-- A `{$set: data}` patch for `update_one`: `some v` means the field is a
key of the `data` dict with value `v`; `none` means the key is absent, so
the stored field is left untouched by the merge-upsert. -/
structure SubPatch where
  status : Option SubscriptionStatus := none
  entitlements : Option (List String) := none
  current_product_id : Option (Option String) := none
  expires_at : Option (Option Int) := none
  revenuecat_customer_id : Option (Option String) := none
deriving DecidableEq, Repr

/-- The document produced by `SubscriptionService.upsert_subscription`: the
patch is extended with `user_id` and `updated_at = now` (and with
`created_at = now` when no document exists yet), then `$set` into the
existing document, or into a fresh one whose unpatched fields take the
pydantic defaults of `SubscriptionInDB`. -/
def upsertRecord (store : Store) (uid : String) (p : SubPatch) (now : Int) :
    SubscriptionInDB :=
  match store uid with
  | some base =>
    { user_id := uid
      revenuecat_customer_id :=
        p.revenuecat_customer_id.getD base.revenuecat_customer_id
      status := p.status.getD base.status
      entitlements := p.entitlements.getD base.entitlements
      current_product_id := p.current_product_id.getD base.current_product_id
      expires_at := p.expires_at.getD base.expires_at
      created_at := base.created_at
      updated_at := now }
  | none =>
    { user_id := uid
      revenuecat_customer_id := p.revenuecat_customer_id.getD none
      status := p.status.getD .expired
      entitlements := p.entitlements.getD []
      current_product_id := p.current_product_id.getD none
      expires_at := p.expires_at.getD none
      created_at := now
      updated_at := now }

/-- `SubscriptionService.upsert_subscription`: applies
`update_one({user_id: uid}, {$set: data}, upsert=True)` and returns the
re-read record together with the resulting collection state. -/
def upsert_subscription (store : Store) (uid : String) (p : SubPatch)
    (now : Int) : Option SubscriptionInDB × Store :=
  (some (upsertRecord store uid p now),
   storeSet store uid (upsertRecord store uid p now))

/-- `SubscriptionService._handle_initial_purchase` (also dispatched for
`NON_RENEWING_PURCHASE`). -/
def handle_initial_purchase (store : Store) (uid : String) (e : WebhookEvent)
    (now : Int) : Option SubscriptionInDB × Store :=
  upsert_subscription store uid
    { status := some (if e.is_trial then .trialing else .active)
      entitlements := some (eventEntitlements e)
      current_product_id := some e.product_id
      expires_at := some (eventExpiresAt e)
      revenuecat_customer_id := some (some e.original_app_user_id) } now

/-- `SubscriptionService._handle_renewal`. -/
def handle_renewal (store : Store) (uid : String) (e : WebhookEvent)
    (now : Int) : Option SubscriptionInDB × Store :=
  upsert_subscription store uid
    { status := some .active
      entitlements := some (eventEntitlements e)
      current_product_id := some e.product_id
      expires_at := some (eventExpiresAt e) } now

/-- `entitlements = existing.entitlements if existing else []`, the read
the cancellation handler performs on the current record. -/
def currentEntitlements (store : Store) (uid : String) : List String :=
  match store uid with
  | some existing => existing.entitlements
  | none => []

/-- `SubscriptionService._handle_cancellation` (also dispatched for
`SUBSCRIPTION_PAUSED`): keeps the existing record's entitlements by
re-writing them into the patch. -/
def handle_cancellation (store : Store) (uid : String) (e : WebhookEvent)
    (now : Int) : Option SubscriptionInDB × Store :=
  upsert_subscription store uid
    { status := some .cancelled
      expires_at := some (eventExpiresAt e)
      entitlements := some (currentEntitlements store uid) } now

/-- `SubscriptionService._handle_uncancellation`. -/
def handle_uncancellation (store : Store) (uid : String) (e : WebhookEvent)
    (now : Int) : Option SubscriptionInDB × Store :=
  upsert_subscription store uid
    { status := some .active
      entitlements := some (eventEntitlements e)
      current_product_id := some e.product_id
      expires_at := some (eventExpiresAt e) } now

/-- `SubscriptionService._handle_expiration`: removes all entitlements,
nulls the product and stamps `expires_at = datetime.utcnow()`. -/
def handle_expiration (store : Store) (uid : String) (_e : WebhookEvent)
    (now : Int) : Option SubscriptionInDB × Store :=
  upsert_subscription store uid
    { status := some .expired
      entitlements := some []
      current_product_id := some none
      expires_at := some (some now) } now

/-- `SubscriptionService._handle_billing_issue`: log only, no mutation;
returns the current record. -/
def handle_billing_issue (store : Store) (uid : String) (_e : WebhookEvent)
    (_now : Int) : Option SubscriptionInDB × Store :=
  (store uid, store)

/-- `SubscriptionService._handle_subscriber_alias`: only
`revenuecat_customer_id` is written. -/
def handle_subscriber_alias (store : Store) (uid : String) (e : WebhookEvent)
    (now : Int) : Option SubscriptionInDB × Store :=
  upsert_subscription store uid
    { revenuecat_customer_id := some (some e.original_app_user_id) } now

/-- `SubscriptionService._handle_product_change`. -/
def handle_product_change (store : Store) (uid : String) (e : WebhookEvent)
    (now : Int) : Option SubscriptionInDB × Store :=
  upsert_subscription store uid
    { status := some .active
      entitlements := some (eventEntitlements e)
      current_product_id := some e.product_id
      expires_at := some (eventExpiresAt e) } now

/-- `user_id = event.app_user_id or event.original_app_user_id` with Python
string truthiness, followed by `if not user_id: return None`. -/
def eventUserId (e : WebhookEvent) : Option String :=
  let uid := if e.app_user_id ≠ "" then e.app_user_id else e.original_app_user_id
  if uid ≠ "" then some uid else none

/-- The `handlers` dict dispatch inside
`SubscriptionService.handle_webhook_event`. -/
def dispatchEvent (store : Store) (uid : String) (e : WebhookEvent)
    (now : Int) : Option SubscriptionInDB × Store :=
  if e.event_type = "INITIAL_PURCHASE" then handle_initial_purchase store uid e now
  else if e.event_type = "RENEWAL" then handle_renewal store uid e now
  else if e.event_type = "CANCELLATION" then handle_cancellation store uid e now
  else if e.event_type = "EXPIRATION" then handle_expiration store uid e now
  else if e.event_type = "BILLING_ISSUE" then handle_billing_issue store uid e now
  else if e.event_type = "SUBSCRIBER_ALIAS" then handle_subscriber_alias store uid e now
  else if e.event_type = "UNCANCELLATION" then handle_uncancellation store uid e now
  else if e.event_type = "NON_RENEWING_PURCHASE" then handle_initial_purchase store uid e now
  else if e.event_type = "SUBSCRIPTION_PAUSED" then handle_cancellation store uid e now
  else if e.event_type = "PRODUCT_CHANGE" then handle_product_change store uid e now
  else (none, store)

/-- `SubscriptionService.handle_webhook_event`: returns the updated record
(`none` for a missing user identity or an unhandled event type — the code
logs and returns without raising) together with the resulting collection
state. -/
def handle_webhook_event (store : Store) (e : WebhookEvent) (now : Int) :
    Option SubscriptionInDB × Store :=
  match eventUserId e with
  | none => (none, store)
  | some uid => dispatchEvent store uid e now

/-- The event-type keys of the `handlers` dict. -/
def recognizedEventTypes : List String :=
  ["INITIAL_PURCHASE", "RENEWAL", "CANCELLATION", "EXPIRATION",
   "BILLING_ISSUE", "SUBSCRIBER_ALIAS", "UNCANCELLATION",
   "NON_RENEWING_PURCHASE", "SUBSCRIPTION_PAUSED", "PRODUCT_CHANGE"]

/-- `SubscriptionService.is_user_pro` evaluated at wall-clock `now`. -/
def is_user_pro (store : Store) (uid : String) (now : Int) : Bool :=
  match store uid with
  | none => false
  | some subscription =>
    if subscription.status = .expired then false
    else if subscription.status = .cancelled then
      match subscription.expires_at with
      | some t => if now < t then decide ("pro" ∈ subscription.entitlements) else false
      | none => false
    else decide ("pro" ∈ subscription.entitlements)

/-- `settings.FREE_TIER_WEEKLY_MESSAGE_LIMIT` (`app/core/config.py`
default). -/
def FREE_TIER_WEEKLY_MESSAGE_LIMIT : Int := 20

/-- Milliseconds per day, for `timedelta.days`. -/
def MS_PER_DAY : Int := 86400000

/-- `SubscriptionService.check_message_limit`:
`(can_send, remaining_messages)`; `remaining_messages` is `none` for pro
users.  `(now - week_start).days >= 7` is Python timedelta flooring,
i.e. `Int.fdiv` of the millisecond difference by one day. -/
def check_message_limit (store : Store) (uid : String)
    (current_message_count : Int) (week_start_ms : Option Int) (now : Int) :
    Bool × Option Int :=
  if is_user_pro store uid now then (true, none)
  else
    let count :=
      match week_start_ms with
      | some ws =>
        if ws ≠ 0 then
          (if 7 ≤ Int.fdiv (now - ws) MS_PER_DAY then 0 else current_message_count)
        else current_message_count
      | none => current_message_count
    let limit := FREE_TIER_WEEKLY_MESSAGE_LIMIT
    (decide (count < limit), some (max 0 (limit - count)))

/-- `SubscriptionStatusResponse` from `app/models/subscription.py` (the
fields the status endpoint fills in). -/
structure SubscriptionStatusResponse where
  user_id : String
  is_pro : Bool
  status : SubscriptionStatus
  entitlements : List String
  current_product_id : Option String
  expires_at : Option Int
  remaining_messages : Option Int
  weekly_message_limit : Int
deriving DecidableEq, Repr

/-- `GET /subscriptions/status/{user_id}` handler body from
`app/api/subscriptions.py`: for a non-pro user `remaining_messages` comes
from `check_message_limit`, except that the no-record branch answers with
the direct difference `FREE_TIER_WEEKLY_MESSAGE_LIMIT - message_count`. -/
def get_subscription_status (store : Store) (uid : String)
    (message_count : Int) (week_start_ms : Option Int) (now : Int) :
    SubscriptionStatusResponse :=
  match store uid with
  | some subscription =>
    { user_id := uid
      is_pro := is_user_pro store uid now
      status := subscription.status
      entitlements := subscription.entitlements
      current_product_id := subscription.current_product_id
      expires_at := subscription.expires_at
      remaining_messages :=
        if is_user_pro store uid now then none
        else (check_message_limit store uid message_count week_start_ms now).2
      weekly_message_limit := FREE_TIER_WEEKLY_MESSAGE_LIMIT }
  | none =>
    { user_id := uid
      is_pro := false
      status := .expired
      entitlements := []
      current_product_id := none
      expires_at := none
      remaining_messages := some (FREE_TIER_WEEKLY_MESSAGE_LIMIT - message_count)
      weekly_message_limit := FREE_TIER_WEEKLY_MESSAGE_LIMIT }

/-- `verify_webhook_signature` from `app/api/subscriptions.py`.  The
`hmac.new(secret.encode(), payload, hashlib.sha256).hexdigest()` library
primitive is abstracted as the parameter `hmacSha256Hex` (it is Python
standard-library code, not part of this repository); `hmac.compare_digest`
on two strings decides equality (in constant time). -/
def verify_webhook_signature (hmacSha256Hex : String → List Nat → String)
    (secret : Option String) (payload : List Nat) (signature : String) :
    Bool :=
  if strTruthy secret = false then true
  else decide (hmacSha256Hex (secret.getD "") payload = signature)

/-- The signature gate of `receive_revenuecat_webhook`: `true` when the
request goes on to webhook processing, `false` when it is rejected with
HTTP 401.  The code runs verification only under
`if settings.REVENUECAT_WEBHOOK_SECRET and x_revenuecat_signature:`. -/
def webhook_request_processed (hmacSha256Hex : String → List Nat → String)
    (secret : Option String) (x_revenuecat_signature : Option String)
    (body : List Nat) : Bool :=
  if strTruthy secret && strTruthy x_revenuecat_signature then
    verify_webhook_signature hmacSha256Hex secret body
      (x_revenuecat_signature.getD "")
  else true

/-- Apply a sequence of webhook events, each with its processing instant,
in receipt order. -/
def applyEvents (events : List (WebhookEvent × Int)) (store : Store) :
    Store :=
  events.foldl (fun s ev => (handle_webhook_event s ev.1 ev.2).2) store

/-- The C4 invariant: `status = expired` forces empty `entitlements`. -/
def ExpiredImpliesNoEntitlements (store : Store) : Prop :=
  ∀ uid r, store uid = some r → r.status = .expired → r.entitlements = []

/-- The effective count exactly as claim C2 words it: `0` whenever
`client_window_start_ms` is PRESENT and `now - window_start ≥ 7` days,
`client_count` verbatim otherwise. -/
def claimedEffectiveCount (client_count : Int) (window_start_ms : Option Int)
    (now : Int) : Int :=
  match window_start_ms with
  | some ws => if 7 * MS_PER_DAY ≤ now - ws then 0 else client_count
  | none => client_count

/-- The quota evaluator as claim C2 words it, over the looked-up pro
status. -/
def check_message_limit_claimed (isPro : Bool) (client_count : Int)
    (window_start_ms : Option Int) (now : Int) : Bool × Option Int :=
  if isPro then (true, none)
  else
    (decide (claimedEffectiveCount client_count window_start_ms now
        < FREE_TIER_WEEKLY_MESSAGE_LIMIT),
     some (max 0 (FREE_TIER_WEEKLY_MESSAGE_LIMIT
        - claimedEffectiveCount client_count window_start_ms now)))

/-- The amended effective count: the window reset additionally requires the
window start to be non-zero (Python truthiness of `week_start_ms`). -/
def amendedEffectiveCount (client_count : Int) (window_start_ms : Option Int)
    (now : Int) : Int :=
  match window_start_ms with
  | some ws => if ws ≠ 0 ∧ 7 * MS_PER_DAY ≤ now - ws then 0 else client_count
  | none => client_count

/-- The quota evaluator as amended claim C2 words it. -/
def check_message_limit_amended_claim (isPro : Bool) (client_count : Int)
    (window_start_ms : Option Int) (now : Int) : Bool × Option Int :=
  if isPro then (true, none)
  else
    (decide (amendedEffectiveCount client_count window_start_ms now
        < FREE_TIER_WEEKLY_MESSAGE_LIMIT),
     some (max 0 (FREE_TIER_WEEKLY_MESSAGE_LIMIT
        - amendedEffectiveCount client_count window_start_ms now)))

/-- Fixture: a cancelled subscription still inside its grace period. -/
def cancelledProRecord : SubscriptionInDB :=
  { user_id := "user_123"
    revenuecat_customer_id := some "user_123"
    status := .cancelled
    entitlements := ["pro"]
    current_product_id := some "dumplin-pro-monthly"
    expires_at := some (5 * MS_PER_DAY)
    created_at := 0
    updated_at := 0 }

/-- Fixture: a collection holding only `cancelledProRecord`. -/
def cancelledProStore : Store :=
  fun k => if k = "user_123" then some cancelledProRecord else none

/-- Fixture: a RENEWAL event that carries no `expiration_at_ms`. -/
def renewalNoExpiryEvent : WebhookEvent :=
  { event_type := "RENEWAL"
    app_user_id := "user_123"
    original_app_user_id := "user_123"
    product_id := some "dumplin-pro-monthly"
    entitlement_ids := ["pro"] }

/-- Fixture: a CANCELLATION event. -/
def cancellationEvent1 : WebhookEvent :=
  { event_type := "CANCELLATION"
    app_user_id := "user_123"
    original_app_user_id := "user_123"
    expiration_at_ms := some (10 * MS_PER_DAY) }

/-- Fixture: an event of a type outside the handled vocabulary. -/
def transferEvent : WebhookEvent :=
  { event_type := "TRANSFER"
    app_user_id := "user_123"
    original_app_user_id := "user_123" }

/-- Fixture: an INITIAL_PURCHASE for the pro entitlement. -/
def ipEvent1 : WebhookEvent :=
  { event_type := "INITIAL_PURCHASE"
    app_user_id := "user_123"
    original_app_user_id := "user_123"
    product_id := some "dumplin-pro-monthly"
    entitlement_ids := ["pro"]
    period_type := some "NORMAL"
    expiration_at_ms := some (30 * MS_PER_DAY) }

/-- Fixture: an EXPIRATION event for the same user. -/
def expEvent1 : WebhookEvent :=
  { event_type := "EXPIRATION"
    app_user_id := "user_123"
    original_app_user_id := "user_123" }

/-- Fixture: the record `ipEvent1` (at instant 0) followed by `expEvent1`
(at instant `31 * MS_PER_DAY`) reconcile to. -/
def reconciledExpiredRecord : SubscriptionInDB :=
  { user_id := "user_123"
    revenuecat_customer_id := some "user_123"
    status := .expired
    entitlements := []
    current_product_id := none
    expires_at := some (31 * MS_PER_DAY)
    created_at := 0
    updated_at := 31 * MS_PER_DAY }

/-- `timedelta.days ≥ 7` on a millisecond difference is the same as the
difference being at least seven days of milliseconds. -/
theorem fdiv_days_ge_seven (d : Int) :
    (7 ≤ Int.fdiv d MS_PER_DAY) ↔ 7 * MS_PER_DAY ≤ d := by
  rw [MS_PER_DAY, Int.fdiv_eq_ediv _ (by norm_num),
    Int.le_ediv_iff_mul_le (by norm_num)]

/-- C1: `is_user_pro` is false for a user with no stored record; false for
a record with `status = expired`; for `status = cancelled` it is true iff
`expires_at` is present, strictly greater than the current wall-clock time,
and `"pro"` is among the entitlements; for `status = active` or
`trialing` it is true iff `"pro"` is among the entitlements. -/
theorem is_user_pro_matches_spec (store : Store) (uid : String) (now : Int) :
    (store uid = none → is_user_pro store uid now = false) ∧
    ∀ r, store uid = some r →
      (r.status = .expired → is_user_pro store uid now = false) ∧
      (r.status = .cancelled →
        (is_user_pro store uid now = true ↔
          (∃ t, r.expires_at = some t ∧ now < t) ∧ "pro" ∈ r.entitlements)) ∧
      ((r.status = .active ∨ r.status = .trialing) →
        (is_user_pro store uid now = true ↔ "pro" ∈ r.entitlements)) := by
  refine ⟨fun h => by simp [is_user_pro, h], fun r hr => ?_⟩
  refine ⟨fun hs => by simp [is_user_pro, hr, hs], fun hs => ?_, fun hs => ?_⟩
  · cases hx : r.expires_at with
    | none => simp [is_user_pro, hr, hs, hx]
    | some t =>
      by_cases hnt : now < t
      · simp [is_user_pro, hr, hs, hx, hnt]
      · simp [is_user_pro, hr, hs, hx, hnt]
  · rcases hs with hs | hs <;> simp [is_user_pro, hr, hs]

/-- Witness for C1: the cancelled-within-grace-period record is pro. -/
theorem is_user_pro_matches_spec_witness :
    is_user_pro cancelledProStore "user_123" (4 * MS_PER_DAY) = true :=
  (((is_user_pro_matches_spec cancelledProStore "user_123"
      (4 * MS_PER_DAY)).2 cancelledProRecord (by decide)).2.1
      (by decide)).mpr
    ⟨⟨5 * MS_PER_DAY, by decide, by decide⟩, by decide⟩

/-- C2 fails as stated at `client_window_start_ms = 0`: the code treats a
zero window start as absent (Python truthiness), so at `now = 7` days a
free user with `client_count = 20` is denied with 0 remaining, while the
claimed evaluator resets the count and answers `(true, 20)`. -/
theorem check_message_limit_claimed_counterexample :
    check_message_limit emptyStore "user_123" 20 (some 0) (7 * MS_PER_DAY)
      = (false, some 0) ∧
    check_message_limit_claimed
        (is_user_pro emptyStore "user_123" (7 * MS_PER_DAY))
        20 (some 0) (7 * MS_PER_DAY)
      = (true, some 20) := by decide

/-- C2 amended: the quota evaluator matches the claimed evaluator once the
window reset additionally requires a non-zero window start: pro users get
`(true, none)`; otherwise `allowed = effective_count < limit` and
`remaining = max 0 (limit - effective_count)` where the effective count is
`0` exactly when the window start is present, non-zero, and at least seven
days old. -/
theorem check_message_limit_matches_amended_claim (store : Store)
    (uid : String) (count : Int) (ws : Option Int) (now : Int) :
    check_message_limit store uid count ws now
      = check_message_limit_amended_claim (is_user_pro store uid now)
          count ws now := by
  cases h : is_user_pro store uid now with
  | true => simp [check_message_limit, check_message_limit_amended_claim, h]
  | false =>
    cases ws with
    | none =>
      simp [check_message_limit, check_message_limit_amended_claim,
        amendedEffectiveCount, h]
    | some w =>
      by_cases hw : w = 0
      · simp [check_message_limit, check_message_limit_amended_claim,
          amendedEffectiveCount, h, hw]
      · simp only [check_message_limit, check_message_limit_amended_claim,
          amendedEffectiveCount, h, hw, ne_eq, not_false_eq_true, if_true,
          Bool.false_eq_true, if_false, fdiv_days_ge_seven, true_and]

/-- C8 fails as stated: with a webhook secret configured, a request whose
signature header is absent (or empty, hence falsy) is processed without any
verification, even though its signature matches nothing. -/
theorem webhook_signature_skip_counterexample :
    strTruthy (some "test_secret") = true ∧
    webhook_request_processed (fun _ _ => "00") (some "test_secret")
        none [1, 2, 3] = true ∧
    webhook_request_processed (fun _ _ => "00") (some "test_secret")
        (some "") [1, 2, 3] = true ∧
    verify_webhook_signature (fun _ _ => "00") (some "test_secret")
        [1, 2, 3] "" = false := by decide

/-- C8 amended: signature checking is skipped when no secret is configured
OR when the request carries no truthy signature header; when a secret is
configured and a signature header is present, the request is processed iff
the header equals the hex HMAC-SHA256 of the raw body under the secret. -/
theorem webhook_signature_gate_amended
    (hmacSha256Hex : String → List Nat → String)
    (secret sig : Option String) (body : List Nat) :
    (strTruthy secret = false →
      webhook_request_processed hmacSha256Hex secret sig body = true) ∧
    (strTruthy sig = false →
      webhook_request_processed hmacSha256Hex secret sig body = true) ∧
    (strTruthy secret = true → strTruthy sig = true →
      webhook_request_processed hmacSha256Hex secret sig body
        = decide (hmacSha256Hex (secret.getD "") body = sig.getD "")) := by
  refine ⟨fun h => ?_, fun h => ?_, fun h1 h2 => ?_⟩
  · simp [webhook_request_processed, h]
  · simp [webhook_request_processed, h]
  · simp [webhook_request_processed, verify_webhook_signature, h1, h2]

/-- Witness for the amended C8: a mismatching present signature is
rejected. -/
theorem webhook_signature_gate_amended_witness :
    strTruthy (some "test_secret") = true ∧
    strTruthy (some "zz") = true ∧
    webhook_request_processed (fun _ _ => "00") (some "test_secret")
        (some "zz") [1, 2, 3] = false := by
  refine ⟨by decide, by decide, ?_⟩
  rw [(webhook_signature_gate_amended (fun _ _ => "00")
    (some "test_secret") (some "zz") [1, 2, 3]).2.2 (by decide) (by decide)]
  decide

/-- C9: a window start of `0` is falsy, so the reset rule is not applied:
the evaluator behaves exactly as with an absent window start and, for a
free user, uses the client count verbatim. -/
theorem window_start_zero_ignored (store : Store) (uid : String)
    (count : Int) (now : Int) :
    check_message_limit store uid count (some 0) now
      = check_message_limit store uid count none now ∧
    (is_user_pro store uid now = false →
      check_message_limit store uid count (some 0) now
        = (decide (count < FREE_TIER_WEEKLY_MESSAGE_LIMIT),
           some (max 0 (FREE_TIER_WEEKLY_MESSAGE_LIMIT - count)))) := by
  constructor
  · simp [check_message_limit]
  · intro h; simp [check_message_limit, h]

/-- Witness for C9: at `now = 100` days a zero window start does not reset
a count of 20, so the free user is denied. -/
theorem window_start_zero_ignored_witness :
    is_user_pro emptyStore "user_123" (100 * MS_PER_DAY) = false ∧
    check_message_limit emptyStore "user_123" 20 (some 0) (100 * MS_PER_DAY)
      = (false, some 0) := by
  refine ⟨rfl, ?_⟩
  rw [(window_start_zero_ignored emptyStore "user_123" 20
    (100 * MS_PER_DAY)).2 rfl]
  decide

/-- C10: the status endpoint's no-record branch reports
`limit - message_count` directly, with no clamping at zero and no window
reset. -/
theorem no_record_status_remaining_unclamped (store : Store) (uid : String)
    (message_count : Int) (week_start_ms : Option Int) (now : Int)
    (h : store uid = none) :
    (get_subscription_status store uid message_count week_start_ms
        now).remaining_messages
      = some (FREE_TIER_WEEKLY_MESSAGE_LIMIT - message_count) := by
  simp [get_subscription_status, h]

/-- Witness for C10: a count of 25 yields a negative remaining count, even
with a stale window start that would have reset the quota. -/
theorem no_record_status_remaining_unclamped_witness :
    emptyStore "user_123" = none ∧
    (get_subscription_status emptyStore "user_123" 25 (some 1)
        (100 * MS_PER_DAY)).remaining_messages = some (-5) := by
  refine ⟨rfl, ?_⟩
  rw [no_record_status_remaining_unclamped emptyStore "user_123" 25
    (some 1) (100 * MS_PER_DAY) rfl]
  decide

/-- Re-setting the same key twice keeps only the last write. -/
theorem storeSet_storeSet (store : Store) (uid : String)
    (r1 r2 : SubscriptionInDB) :
    storeSet (storeSet store uid r1) uid r2 = storeSet store uid r2 :=
  funext fun k => by by_cases hk : k = uid <;> simp [storeSet, hk]

/-- Re-applying the same patch to the freshly upserted document rebuilds
the same document: the merge-upsert overwrites fields, it does not
increment them. -/
theorem upsertRecord_stable (store : Store) (uid : String) (p : SubPatch)
    (now : Int) :
    upsertRecord (storeSet store uid (upsertRecord store uid p now)) uid p
        now
      = upsertRecord store uid p now := by
  rcases p with ⟨st, en, cp, ex, rc⟩
  cases hstore : store uid <;>
    cases st <;> cases en <;> cases cp <;> cases ex <;> cases rc <;>
      simp [upsertRecord, storeSet, hstore]

/-- `upsert_subscription` is idempotent in the patch. -/
theorem upsert_subscription_idem (store : Store) (uid : String)
    (p : SubPatch) (now : Int) :
    upsert_subscription (upsert_subscription store uid p now).2 uid p now
      = upsert_subscription store uid p now := by
  unfold upsert_subscription
  rw [upsertRecord_stable, storeSet_storeSet]

/-- The cancellation handler is idempotent: its second run reads back the
entitlements its first run wrote. -/
theorem handle_cancellation_idem (store : Store) (uid : String)
    (e : WebhookEvent) (now : Int) :
    handle_cancellation (handle_cancellation store uid e now).2 uid e now
      = handle_cancellation store uid e now := by
  have hent : currentEntitlements (handle_cancellation store uid e now).2 uid
      = currentEntitlements store uid := by
    cases hstore : store uid <;>
      simp [handle_cancellation, upsert_subscription, upsertRecord,
        currentEntitlements, storeSet, hstore]
  conv_lhs => rw [handle_cancellation]
  rw [hent]
  exact upsert_subscription_idem store uid _ now

/-- The purchase handler is idempotent at a fixed instant. -/
theorem handle_initial_purchase_idem (store : Store) (uid : String)
    (e : WebhookEvent) (now : Int) :
    handle_initial_purchase (handle_initial_purchase store uid e now).2 uid
        e now
      = handle_initial_purchase store uid e now :=
  upsert_subscription_idem store uid _ now

/-- The renewal handler is idempotent at a fixed instant. -/
theorem handle_renewal_idem (store : Store) (uid : String)
    (e : WebhookEvent) (now : Int) :
    handle_renewal (handle_renewal store uid e now).2 uid e now
      = handle_renewal store uid e now :=
  upsert_subscription_idem store uid _ now

/-- The uncancellation handler is idempotent at a fixed instant. -/
theorem handle_uncancellation_idem (store : Store) (uid : String)
    (e : WebhookEvent) (now : Int) :
    handle_uncancellation (handle_uncancellation store uid e now).2 uid e now
      = handle_uncancellation store uid e now :=
  upsert_subscription_idem store uid _ now

/-- The expiration handler is idempotent at a fixed instant. -/
theorem handle_expiration_idem (store : Store) (uid : String)
    (e : WebhookEvent) (now : Int) :
    handle_expiration (handle_expiration store uid e now).2 uid e now
      = handle_expiration store uid e now :=
  upsert_subscription_idem store uid _ now

/-- The alias handler is idempotent at a fixed instant. -/
theorem handle_subscriber_alias_idem (store : Store) (uid : String)
    (e : WebhookEvent) (now : Int) :
    handle_subscriber_alias (handle_subscriber_alias store uid e now).2 uid
        e now
      = handle_subscriber_alias store uid e now :=
  upsert_subscription_idem store uid _ now

/-- The product-change handler is idempotent at a fixed instant. -/
theorem handle_product_change_idem (store : Store) (uid : String)
    (e : WebhookEvent) (now : Int) :
    handle_product_change (handle_product_change store uid e now).2 uid e now
      = handle_product_change store uid e now :=
  upsert_subscription_idem store uid _ now

/-- Every dispatched handler is idempotent at a fixed instant. -/
theorem dispatchEvent_idem (store : Store) (uid : String) (e : WebhookEvent)
    (now : Int) :
    dispatchEvent (dispatchEvent store uid e now).2 uid e now
      = dispatchEvent store uid e now := by
  unfold dispatchEvent
  by_cases h1 : e.event_type = "INITIAL_PURCHASE"
  · simp only [if_pos h1]; exact handle_initial_purchase_idem store uid e now
  simp only [if_neg h1]
  by_cases h2 : e.event_type = "RENEWAL"
  · simp only [if_pos h2]; exact handle_renewal_idem store uid e now
  simp only [if_neg h2]
  by_cases h3 : e.event_type = "CANCELLATION"
  · simp only [if_pos h3]; exact handle_cancellation_idem store uid e now
  simp only [if_neg h3]
  by_cases h4 : e.event_type = "EXPIRATION"
  · simp only [if_pos h4]; exact handle_expiration_idem store uid e now
  simp only [if_neg h4]
  by_cases h5 : e.event_type = "BILLING_ISSUE"
  · simp only [if_pos h5]; rfl
  simp only [if_neg h5]
  by_cases h6 : e.event_type = "SUBSCRIBER_ALIAS"
  · simp only [if_pos h6]; exact handle_subscriber_alias_idem store uid e now
  simp only [if_neg h6]
  by_cases h7 : e.event_type = "UNCANCELLATION"
  · simp only [if_pos h7]; exact handle_uncancellation_idem store uid e now
  simp only [if_neg h7]
  by_cases h8 : e.event_type = "NON_RENEWING_PURCHASE"
  · simp only [if_pos h8]; exact handle_initial_purchase_idem store uid e now
  simp only [if_neg h8]
  by_cases h9 : e.event_type = "SUBSCRIPTION_PAUSED"
  · simp only [if_pos h9]; exact handle_cancellation_idem store uid e now
  simp only [if_neg h9]
  by_cases h10 : e.event_type = "PRODUCT_CHANGE"
  · simp only [if_pos h10]; exact handle_product_change_idem store uid e now
  simp only [if_neg h10]

/-- C3: processing the same webhook event twice at the same wall-clock
instant returns the same record and leaves the same store as processing it
once — replays converge because the merge-upsert overwrites fields. -/
theorem handle_webhook_event_idempotent (store : Store) (e : WebhookEvent)
    (now : Int) :
    handle_webhook_event (handle_webhook_event store e now).2 e now
      = handle_webhook_event store e now := by
  unfold handle_webhook_event
  cases h : eventUserId e with
  | none => rfl
  | some uid => exact dispatchEvent_idem store uid e now

/-- The merge-upsert preserves the expired-has-no-entitlements invariant
whenever the patch itself does. -/
theorem upsert_subscription_invariant (store : Store) (uid : String)
    (p : SubPatch) (now : Int)
    (hinv : ExpiredImpliesNoEntitlements store)
    (hp : ∀ st en, (st = .expired → en = []) →
      p.status.getD st = .expired → p.entitlements.getD en = []) :
    ExpiredImpliesNoEntitlements (upsert_subscription store uid p now).2 := by
  intro k r hk hstat
  have hk2 : (if k = uid then some (upsertRecord store uid p now)
      else store k) = some r := hk
  by_cases hku : k = uid
  · rw [if_pos hku] at hk2
    injection hk2 with hk3
    subst hk3
    cases hbase : store uid with
    | some base =>
      simp only [upsertRecord, hbase] at hstat ⊢
      exact hp _ _ (hinv uid base hbase) hstat
    | none =>
      simp only [upsertRecord, hbase] at hstat ⊢
      exact hp .expired [] (fun _ => rfl) hstat
  · rw [if_neg hku] at hk2
    exact hinv k r hk2 hstat

/-- The purchase patch preserves the invariant. -/
theorem handle_initial_purchase_invariant (store : Store) (uid : String)
    (e : WebhookEvent) (now : Int)
    (hinv : ExpiredImpliesNoEntitlements store) :
    ExpiredImpliesNoEntitlements
      (handle_initial_purchase store uid e now).2 :=
  upsert_subscription_invariant store uid _ now hinv
    (fun _ _ _ hstat => by cases htr : e.is_trial <;> simp [htr] at hstat)

/-- The renewal patch preserves the invariant. -/
theorem handle_renewal_invariant (store : Store) (uid : String)
    (e : WebhookEvent) (now : Int)
    (hinv : ExpiredImpliesNoEntitlements store) :
    ExpiredImpliesNoEntitlements (handle_renewal store uid e now).2 :=
  upsert_subscription_invariant store uid _ now hinv
    (fun _ _ _ hstat => by simp at hstat)

/-- The cancellation patch preserves the invariant. -/
theorem handle_cancellation_invariant (store : Store) (uid : String)
    (e : WebhookEvent) (now : Int)
    (hinv : ExpiredImpliesNoEntitlements store) :
    ExpiredImpliesNoEntitlements (handle_cancellation store uid e now).2 :=
  upsert_subscription_invariant store uid _ now hinv
    (fun _ _ _ hstat => by simp at hstat)

/-- The uncancellation patch preserves the invariant. -/
theorem handle_uncancellation_invariant (store : Store) (uid : String)
    (e : WebhookEvent) (now : Int)
    (hinv : ExpiredImpliesNoEntitlements store) :
    ExpiredImpliesNoEntitlements (handle_uncancellation store uid e now).2 :=
  upsert_subscription_invariant store uid _ now hinv
    (fun _ _ _ hstat => by simp at hstat)

/-- The expiration patch preserves the invariant (it clears
entitlements). -/
theorem handle_expiration_invariant (store : Store) (uid : String)
    (e : WebhookEvent) (now : Int)
    (hinv : ExpiredImpliesNoEntitlements store) :
    ExpiredImpliesNoEntitlements (handle_expiration store uid e now).2 :=
  upsert_subscription_invariant store uid _ now hinv
    (fun _ _ _ _ => rfl)

/-- The alias patch preserves the invariant (it touches neither status nor
entitlements). -/
theorem handle_subscriber_alias_invariant (store : Store) (uid : String)
    (e : WebhookEvent) (now : Int)
    (hinv : ExpiredImpliesNoEntitlements store) :
    ExpiredImpliesNoEntitlements
      (handle_subscriber_alias store uid e now).2 :=
  upsert_subscription_invariant store uid _ now hinv
    (fun _ _ hbase hstat => hbase hstat)

/-- The product-change patch preserves the invariant. -/
theorem handle_product_change_invariant (store : Store) (uid : String)
    (e : WebhookEvent) (now : Int)
    (hinv : ExpiredImpliesNoEntitlements store) :
    ExpiredImpliesNoEntitlements (handle_product_change store uid e now).2 :=
  upsert_subscription_invariant store uid _ now hinv
    (fun _ _ _ hstat => by simp at hstat)

/-- Dispatch preserves the expired-has-no-entitlements invariant. -/
theorem dispatchEvent_invariant (store : Store) (uid : String)
    (e : WebhookEvent) (now : Int)
    (hinv : ExpiredImpliesNoEntitlements store) :
    ExpiredImpliesNoEntitlements (dispatchEvent store uid e now).2 := by
  unfold dispatchEvent
  by_cases h1 : e.event_type = "INITIAL_PURCHASE"
  · simp only [if_pos h1]
    exact handle_initial_purchase_invariant store uid e now hinv
  simp only [if_neg h1]
  by_cases h2 : e.event_type = "RENEWAL"
  · simp only [if_pos h2]; exact handle_renewal_invariant store uid e now hinv
  simp only [if_neg h2]
  by_cases h3 : e.event_type = "CANCELLATION"
  · simp only [if_pos h3]
    exact handle_cancellation_invariant store uid e now hinv
  simp only [if_neg h3]
  by_cases h4 : e.event_type = "EXPIRATION"
  · simp only [if_pos h4]
    exact handle_expiration_invariant store uid e now hinv
  simp only [if_neg h4]
  by_cases h5 : e.event_type = "BILLING_ISSUE"
  · simp only [if_pos h5]; exact hinv
  simp only [if_neg h5]
  by_cases h6 : e.event_type = "SUBSCRIBER_ALIAS"
  · simp only [if_pos h6]
    exact handle_subscriber_alias_invariant store uid e now hinv
  simp only [if_neg h6]
  by_cases h7 : e.event_type = "UNCANCELLATION"
  · simp only [if_pos h7]
    exact handle_uncancellation_invariant store uid e now hinv
  simp only [if_neg h7]
  by_cases h8 : e.event_type = "NON_RENEWING_PURCHASE"
  · simp only [if_pos h8]
    exact handle_initial_purchase_invariant store uid e now hinv
  simp only [if_neg h8]
  by_cases h9 : e.event_type = "SUBSCRIPTION_PAUSED"
  · simp only [if_pos h9]
    exact handle_cancellation_invariant store uid e now hinv
  simp only [if_neg h9]
  by_cases h10 : e.event_type = "PRODUCT_CHANGE"
  · simp only [if_pos h10]
    exact handle_product_change_invariant store uid e now hinv
  simp only [if_neg h10]
  exact hinv

/-- The Reconciler preserves the expired-has-no-entitlements invariant. -/
theorem handle_webhook_event_invariant (store : Store) (e : WebhookEvent)
    (now : Int) (hinv : ExpiredImpliesNoEntitlements store) :
    ExpiredImpliesNoEntitlements (handle_webhook_event store e now).2 := by
  unfold handle_webhook_event
  cases h : eventUserId e with
  | none => exact hinv
  | some uid => exact dispatchEvent_invariant store uid e now hinv

/-- Applying any event sequence preserves the invariant. -/
theorem applyEvents_invariant (events : List (WebhookEvent × Int))
    (store : Store) (h : ExpiredImpliesNoEntitlements store) :
    ExpiredImpliesNoEntitlements (applyEvents events store) := by
  induction events generalizing store with
  | nil => exact h
  | cons ev rest ih =>
    exact ih _ (handle_webhook_event_invariant store ev.1 ev.2 h)

/-- C4: every record reachable from the empty store through any sequence of
webhook events satisfies `status = expired → entitlements = ∅`, and every
single webhook step preserves that invariant. -/
theorem expired_record_has_no_entitlements
    (events : List (WebhookEvent × Int)) :
    ExpiredImpliesNoEntitlements (applyEvents events emptyStore) ∧
    ∀ store e now, ExpiredImpliesNoEntitlements store →
      ExpiredImpliesNoEntitlements (handle_webhook_event store e now).2 :=
  ⟨applyEvents_invariant events emptyStore (fun _ _ h => nomatch h),
   fun store e now h => handle_webhook_event_invariant store e now h⟩

/-- Witness for C4: a purchase followed by an expiration reconciles to an
expired record with no entitlements. -/
theorem expired_record_has_no_entitlements_witness :
    reconciledExpiredRecord.entitlements = [] :=
  (expired_record_has_no_entitlements
      [(ipEvent1, 0), (expEvent1, 31 * MS_PER_DAY)]).1 "user_123"
    reconciledExpiredRecord (by decide) (by decide)

/-- C5 fails as stated: a RENEWAL without `expiration_at_ms` overwrites the
previously stored `expires_at = 5 days` with null rather than leaving it
unchanged — the patch always contains the `expires_at` key. -/
theorem absent_expiration_overwrites_counterexample :
    (cancelledProStore "user_123").map (fun r => r.expires_at)
      = some (some (5 * MS_PER_DAY)) ∧
    ((handle_webhook_event cancelledProStore renewalNoExpiryEvent
        0).2 "user_123").map (fun r => r.expires_at) = some none := by
  decide

/-- C5 amended: for the seven purchase / renewal / change / cancellation
event types, an event whose `expiration_at_ms` is absent makes the handler
write `expires_at = None`, clearing whatever value the record had. -/
theorem absent_expiration_clears_expires_at (store : Store)
    (e : WebhookEvent) (now : Int) (uid : String)
    (htype : e.event_type = "INITIAL_PURCHASE" ∨
      e.event_type = "NON_RENEWING_PURCHASE" ∨ e.event_type = "RENEWAL" ∨
      e.event_type = "UNCANCELLATION" ∨ e.event_type = "PRODUCT_CHANGE" ∨
      e.event_type = "CANCELLATION" ∨ e.event_type = "SUBSCRIPTION_PAUSED")
    (hms : e.expiration_at_ms = none) (huid : eventUserId e = some uid) :
    ((handle_webhook_event store e now).2 uid).map (fun r => r.expires_at)
      = some none := by
  have hexp : eventExpiresAt e = none := by simp [eventExpiresAt, hms]
  unfold handle_webhook_event
  rw [huid]
  unfold dispatchEvent
  rcases htype with h | h | h | h | h | h | h <;>
    cases hstore : store uid <;>
      simp [h, hexp, hstore, handle_initial_purchase, handle_renewal,
        handle_uncancellation, handle_product_change, handle_cancellation,
        upsert_subscription, upsertRecord, storeSet]

/-- Witness for the amended C5: the renewal without an expiration clears
the stored grace-period expiry. -/
theorem absent_expiration_clears_expires_at_witness :
    ((handle_webhook_event cancelledProStore renewalNoExpiryEvent 0).2
        "user_123").map (fun r => r.expires_at) = some none :=
  absent_expiration_clears_expires_at cancelledProStore renewalNoExpiryEvent
    0 "user_123" (Or.inr (Or.inr (Or.inl rfl))) rfl (by decide)

/-- C6: a CANCELLATION re-writes the pre-existing entitlements exactly as
they were and leaves `current_product_id` untouched; an EXPIRATION clears
entitlements to `∅`, nulls `current_product_id` and stamps `expires_at`
with the server processing instant. -/
theorem cancellation_keeps_expiration_clears (store : Store)
    (e : WebhookEvent) (now : Int) (uid : String)
    (huid : eventUserId e = some uid) :
    (e.event_type = "CANCELLATION" →
      ∀ r0, store uid = some r0 →
        ((handle_webhook_event store e now).2 uid).map
            (fun r => (r.entitlements, r.current_product_id))
          = some (r0.entitlements, r0.current_product_id)) ∧
    (e.event_type = "EXPIRATION" →
      ((handle_webhook_event store e now).2 uid).map
          (fun r => (r.entitlements, r.current_product_id, r.expires_at))
        = some ([], none, some now)) := by
  constructor
  · intro h r0 hr0
    unfold handle_webhook_event
    rw [huid]
    unfold dispatchEvent
    simp [h, handle_cancellation, currentEntitlements, upsert_subscription,
      upsertRecord, storeSet, hr0]
  · intro h
    unfold handle_webhook_event
    rw [huid]
    unfold dispatchEvent
    cases hstore : store uid <;>
      simp [h, handle_expiration, upsert_subscription, upsertRecord,
        storeSet, hstore]

/-- Witness for C6: cancelling the grace-period record keeps its `pro`
entitlement and product id. -/
theorem cancellation_keeps_expiration_clears_witness :
    ((handle_webhook_event cancelledProStore cancellationEvent1 0).2
        "user_123").map (fun r => (r.entitlements, r.current_product_id))
      = some (cancelledProRecord.entitlements,
          cancelledProRecord.current_product_id) :=
  (cancellation_keeps_expiration_clears cancelledProStore cancellationEvent1
      0 "user_123" (by decide)).1 rfl cancelledProRecord (by decide)

/-- C7: an unrecognized event type, or an event missing both the primary
and the alias user identity, leaves the store untouched and returns the
no-mutation result (the code logs and returns `None`, raising nothing);
when only the alias identity is present the event is dispatched against the
record keyed by the alias identity. -/
theorem unrecognized_or_anonymous_is_noop (store : Store) (e : WebhookEvent)
    (now : Int) :
    (e.event_type ∉ recognizedEventTypes →
      handle_webhook_event store e now = (none, store)) ∧
    (e.app_user_id = "" ∧ e.original_app_user_id = "" →
      handle_webhook_event store e now = (none, store)) ∧
    (e.app_user_id = "" → e.original_app_user_id ≠ "" →
      handle_webhook_event store e now
        = dispatchEvent store e.original_app_user_id e now) := by
  refine ⟨fun h => ?_, fun h => ?_, fun h1 h2 => ?_⟩
  · simp only [recognizedEventTypes, List.mem_cons, List.mem_singleton,
      not_or] at h
    obtain ⟨h1, h2, h3, h4, h5, h6, h7, h8, h9, h10⟩ := h
    unfold handle_webhook_event
    cases huid : eventUserId e with
    | none => rfl
    | some uid =>
      simp [dispatchEvent, h1, h2, h3, h4, h5, h6, h7, h8, h9, h10]
  · unfold handle_webhook_event
    have huid : eventUserId e = none := by simp [eventUserId, h.1, h.2]
    rw [huid]
  · unfold handle_webhook_event
    have huid : eventUserId e = some e.original_app_user_id := by
      simp [eventUserId, h1, h2]
    rw [huid]

/-- Witness for C7: an event of type `TRANSFER` is a no-op on a nonempty
store. -/
theorem unrecognized_or_anonymous_is_noop_witness :
    handle_webhook_event cancelledProStore transferEvent 0
      = (none, cancelledProStore) :=
  (unrecognized_or_anonymous_is_noop cancelledProStore transferEvent 0).1
    (by decide)

end Dumplin

